import Mathlib

/-!
# StandardSTDP (network/src/STDP.cpp)

A shallow embedding of the spike-timing-dependent plasticity rule of STDP.cpp: the three
constructors of `StandardSTDP` and the three trigger computations `postTrigger`,
`preTriggerHebb` and `preTriggerAntiHebb`.

Conventions of the embedding.

* `F` is the scalar type of the numeric layer (`float` in the source).  The scalar operators
  `-`, `/`, `*` and unary `-` are whatever `F` provides, so the definitions run on any scalar
  type; order-sensitive results are stated for linearly ordered fields.
* An `af::array` of timestamps is a `List F`.  Operators between an array and a scalar act
  element by element.  The operator between two arrays belongs to the array library, which
  also decides what happens when the shapes differ; it is a field of `ArrayLayer`.
* A constructor runs on the storage of the object under construction and writes exactly the
  members that its initialiser list and body name; every other member keeps what the storage
  held before.
* Where the special values of `float` decide a result, the scalar type is `IEEEScalar`
  (finite numbers, the two infinities and NaN), and where the range of binary32 decides it,
  the exponential is `binary32Exp`.  Rounding of finite results is not modelled.
-/

/-- Modelled from the spec: the enumeration `GenericNeuron::Polarity` (`POLAR` in the source),
whose declaration lives in a header outside the sources. -/
inductive Polarity where
  | Excitatory
  | Inhibitory
  deriving DecidableEq

/-- Error kinds that the specification attaches to this component (its section 7).  The
source has no statement that raises either of them. -/
inductive STDPError where
  | InvalidParameter
  | ShapeMismatch
  deriving DecidableEq

/-- What STDP.cpp takes from headers that are not among the sources: the integer value of each
`Polarity` enumerator (the constructor uses a polarity as a condition), the identifier
`_hebbian` that the three-argument constructor passes on, and the sixteen `DEF_*` presets. -/
structure Header (F : Type) where
  polarityValue : Polarity → Int
  _hebbian : Bool
  DEF_EE_W_PLUS : F
  DEF_EE_W_MINUS : F
  DEF_EE_TAU_P : F
  DEF_EE_TAU_M : F
  DEF_EI_W_PLUS : F
  DEF_EI_W_MINUS : F
  DEF_EI_TAU_P : F
  DEF_EI_TAU_M : F
  DEF_IE_W_PLUS : F
  DEF_IE_W_MINUS : F
  DEF_IE_TAU_P : F
  DEF_IE_TAU_M : F
  DEF_II_W_PLUS : F
  DEF_II_W_MINUS : F
  DEF_II_TAU_P : F
  DEF_II_TAU_M : F

/-- Contextual conversion of a polarity to `bool`: true for a non-zero enumerator. -/
def Header.truthy {F : Type} (H : Header F) (p : Polarity) : Bool :=
  H.polarityValue p != 0

/-- The array library under the triggers (ArrayFire in the source): the elementwise
exponential `af::exp`, the conversion of a `uint32_t` scalar to the element type, and the
binary `operator-` between two arrays, which may reject its operands. -/
structure ArrayLayer (F : Type) (E : Type) where
  exp : F → F
  ofUInt32 : Fin 4294967296 → F
  sub : List F → List F → Except E (List F)

/-- An array layer subtracts element by element when the two arrays have equal length. -/
def ArrayLayer.Elementwise {F E : Type} [Sub F] (L : ArrayLayer F E) : Prop :=
  ∀ a b : List F, a.length = b.length → L.sub a b = Except.ok (List.zipWith (fun x y => x - y) a b)

/-- `af::exp(a)`. -/
def ArrayLayer.arrayExp {F E : Type} (L : ArrayLayer F E) (a : List F) : List F :=
  a.map L.exp

/-- `s - a` for a `uint32_t` scalar `s` and an array `a`. -/
def ArrayLayer.scalarSubArray {F E : Type} [Sub F] (L : ArrayLayer F E)
    (s : Fin 4294967296) (a : List F) : List F :=
  a.map (fun x => L.ofUInt32 s - x)

/-- `a / s` for an array `a` and a scalar `s`. -/
def arrayDivScalar {F : Type} [Div F] (a : List F) (s : F) : List F :=
  a.map (fun x => x / s)

/-- `s * a` for a scalar `s` and an array `a`. -/
def scalarMulArray {F : Type} [Mul F] (s : F) (a : List F) : List F :=
  a.map (fun x => s * x)

/-- `a * s` for an array `a` and a scalar `s`. -/
def arrayMulScalar {F : Type} [Mul F] (a : List F) (s : F) : List F :=
  a.map (fun x => x * s)

/-- The members of `StandardSTDP` that STDP.cpp names.  The four-argument constructor
initialises `heb`; the eight-argument constructor initialises `hebb`, which is also the
member that `postTrigger` reads. -/
structure StandardSTDP (F : Type) where
  srcPol : Polarity
  tarPol : Polarity
  eta : F
  heb : Bool
  hebb : Bool
  w_p : F
  w_m : F
  tau_p : F
  tau_m : F

namespace StandardSTDP

variable {F E : Type}

/-- `StandardSTDP(_srcPol, _tarPol, _eta, _hebbian)` (STDP.cpp lines 14-41), run on the
storage `self`. -/
def ctor4 (H : Header F) (self : StandardSTDP F) (_srcPol _tarPol : Polarity) (_eta : F)
    (_hebbian : Bool) : Except STDPError (StandardSTDP F) :=
  let self := { self with srcPol := _srcPol, tarPol := _tarPol, eta := _eta, heb := _hebbian }
  if H.truthy _srcPol && H.truthy _tarPol then
    Except.ok { self with
      w_p := H.DEF_EE_W_PLUS, w_m := H.DEF_EE_W_MINUS,
      tau_p := H.DEF_EE_TAU_P, tau_m := H.DEF_EE_TAU_M }
  else if H.truthy _srcPol && !H.truthy _tarPol then
    Except.ok { self with
      w_p := H.DEF_EI_W_PLUS, w_m := H.DEF_EI_W_MINUS,
      tau_p := H.DEF_EI_TAU_P, tau_m := H.DEF_EI_TAU_M }
  else if !H.truthy _srcPol && H.truthy _tarPol then
    Except.ok { self with
      w_p := H.DEF_IE_W_PLUS, w_m := H.DEF_IE_W_MINUS,
      tau_p := H.DEF_IE_TAU_P, tau_m := H.DEF_IE_TAU_M }
  else
    Except.ok { self with
      w_p := H.DEF_II_W_PLUS, w_m := H.DEF_II_W_MINUS,
      tau_p := H.DEF_II_TAU_P, tau_m := H.DEF_II_TAU_M }

/-- `StandardSTDP(_srcPol, _tarPol, _eta)` (STDP.cpp lines 9-12): delegates to the
four-argument constructor with the identifier `_hebbian`. -/
def ctor3 (H : Header F) (self : StandardSTDP F) (_srcPol _tarPol : Polarity) (_eta : F) :
    Except STDPError (StandardSTDP F) :=
  ctor4 H self _srcPol _tarPol _eta H._hebbian

/-- The eight-argument constructor (STDP.cpp lines 43-58), run on the storage `self`. -/
def ctor8 (self : StandardSTDP F) (_srcPol _tarPol : Polarity) (_eta : F) (_hebbian : Bool)
    (_w_p _w_m _tau_p _tau_m : F) : Except STDPError (StandardSTDP F) :=
  let self := { self with srcPol := _srcPol, tarPol := _tarPol, eta := _eta, hebb := _hebbian }
  Except.ok { self with w_p := _w_p, w_m := _w_m, tau_p := _tau_p, tau_m := _tau_m }

/-- `postTrigger(lastPostSpk, lastArr)` (STDP.cpp lines 60-67). -/
def postTrigger [Div F] [Mul F] [Neg F] (L : ArrayLayer F E) (self : StandardSTDP F)
    (lastPostSpk lastArr : List F) : Except E (List F) :=
  if self.hebb then
    (L.sub lastArr lastPostSpk).map fun d =>
      arrayMulScalar (scalarMulArray self.eta (L.arrayExp (arrayDivScalar d self.tau_p))) self.w_p
  else
    (L.sub lastArr lastPostSpk).map fun d =>
      arrayMulScalar (scalarMulArray (-self.eta) (L.arrayExp (arrayDivScalar d self.tau_m)))
        self.w_m

/-- `preTriggerHebb(lastPostSpk, lastArr)` (STDP.cpp lines 69-73). -/
def preTriggerHebb [Sub F] [Div F] [Mul F] [Neg F] (L : ArrayLayer F E) (self : StandardSTDP F)
    (lastPostSpk : Fin 4294967296) (lastArr : List F) : List F :=
  arrayMulScalar
    (scalarMulArray (-self.eta)
      (L.arrayExp (arrayDivScalar (L.scalarSubArray lastPostSpk lastArr) self.tau_m)))
    self.w_m

/-- `preTriggerAntiHebb(lastPostSpk, lastArr)` (STDP.cpp lines 75-79). -/
def preTriggerAntiHebb [Sub F] [Div F] [Mul F] (L : ArrayLayer F E) (self : StandardSTDP F)
    (lastPostSpk : Fin 4294967296) (lastArr : List F) : List F :=
  arrayMulScalar
    (scalarMulArray self.eta
      (L.arrayExp (arrayDivScalar (L.scalarSubArray lastPostSpk lastArr) self.tau_p)))
    self.w_p

end StandardSTDP

/-- An array layer whose `operator-` accepts only operands of equal length and reports
`err` otherwise. -/
def strictLayer {F E : Type} [Sub F] (exp : F → F) (ofUInt32 : Fin 4294967296 → F) (err : E) :
    ArrayLayer F E where
  exp := exp
  ofUInt32 := ofUInt32
  sub := fun a b =>
    if a.length = b.length then Except.ok (List.zipWith (fun x y => x - y) a b)
    else Except.error err

/-- A header over the rationals used to run the constructors: `Excitatory = 1`,
`Inhibitory = 0`, `_hebbian = true` and four different presets. -/
def sampleHeader : Header ℚ where
  polarityValue := fun p => if p = Polarity.Excitatory then 1 else 0
  _hebbian := true
  DEF_EE_W_PLUS := 1
  DEF_EE_W_MINUS := 1
  DEF_EE_TAU_P := 20
  DEF_EE_TAU_M := 20
  DEF_EI_W_PLUS := 2
  DEF_EI_W_MINUS := 2
  DEF_EI_TAU_P := 21
  DEF_EI_TAU_M := 21
  DEF_IE_W_PLUS := 3
  DEF_IE_W_MINUS := 3
  DEF_IE_TAU_P := 22
  DEF_IE_TAU_M := 22
  DEF_II_W_PLUS := 4
  DEF_II_W_MINUS := 4
  DEF_II_TAU_P := 23
  DEF_II_TAU_M := 23

/-- Storage of an object before its constructor runs, holding values that no constructor
call below passes: both flags are `false`. -/
def sampleStorage : StandardSTDP ℚ where
  srcPol := Polarity.Inhibitory
  tarPol := Polarity.Inhibitory
  eta := 5
  heb := false
  hebb := false
  w_p := 5
  w_m := 5
  tau_p := 5
  tau_m := 5

/-- An array of `n` elements with its indices permuted by `p`: element `i` of the result
is element `p i` of `l`. -/
def permuteArray {F : Type} {n : Nat} (p : Equiv.Perm (Fin n)) (l : List F)
    (h : l.length = n) : List F :=
  List.ofFn fun i : Fin n => l.get (Fin.cast h.symm (p i))

/-- A `float` of the source with the special values of IEEE 754 arithmetic: a finite
number, an infinity or NaN.  Finite results are exact (rounding is not modelled) and the
two signed zeros are one value. -/
inductive IEEEScalar (K : Type) where
  | fin (x : K)
  | posInf
  | negInf
  | nan

namespace IEEEScalar

variable {K : Type} [LinearOrderedField K]

/-- Unary minus of `float`. -/
def neg : IEEEScalar K → IEEEScalar K
  | fin x => fin (-x)
  | posInf => negInf
  | negInf => posInf
  | nan => nan

/-- Subtraction of `float`: infinities of the same sign cancel to NaN. -/
def sub : IEEEScalar K → IEEEScalar K → IEEEScalar K
  | fin x, fin y => fin (x - y)
  | fin _, posInf => negInf
  | fin _, negInf => posInf
  | posInf, fin _ => posInf
  | negInf, fin _ => negInf
  | posInf, negInf => posInf
  | negInf, posInf => negInf
  | posInf, posInf => nan
  | negInf, negInf => nan
  | nan, _ => nan
  | _, nan => nan

/-- Multiplication of `float`: zero times an infinity is NaN. -/
def mul : IEEEScalar K → IEEEScalar K → IEEEScalar K
  | fin x, fin y => fin (x * y)
  | fin x, posInf => if x = 0 then nan else if 0 < x then posInf else negInf
  | fin x, negInf => if x = 0 then nan else if 0 < x then negInf else posInf
  | posInf, fin y => if y = 0 then nan else if 0 < y then posInf else negInf
  | negInf, fin y => if y = 0 then nan else if 0 < y then negInf else posInf
  | posInf, posInf => posInf
  | posInf, negInf => negInf
  | negInf, posInf => negInf
  | negInf, negInf => posInf
  | nan, _ => nan
  | _, nan => nan

/-- Division of `float`: zero by zero and infinity by infinity are NaN, a non-zero finite
number by zero is an infinity, a finite number by an infinity is zero. -/
def div : IEEEScalar K → IEEEScalar K → IEEEScalar K
  | fin x, fin y =>
    if y = 0 then (if x = 0 then nan else if 0 < x then posInf else negInf) else fin (x / y)
  | fin _, posInf => fin 0
  | fin _, negInf => fin 0
  | posInf, fin y => if y < 0 then negInf else posInf
  | negInf, fin y => if y < 0 then posInf else negInf
  | posInf, posInf => nan
  | posInf, negInf => nan
  | negInf, posInf => nan
  | negInf, negInf => nan
  | nan, _ => nan
  | _, nan => nan

/-- The exponential on `float`, from the exponential `e` on finite numbers:
`exp(+inf) = +inf`, `exp(-inf) = 0`, `exp(NaN) = NaN`. -/
def exp (e : K → K) : IEEEScalar K → IEEEScalar K
  | fin x => fin (e x)
  | posInf => posInf
  | negInf => fin 0
  | nan => nan

instance : Neg (IEEEScalar K) := ⟨neg⟩

instance : Sub (IEEEScalar K) := ⟨sub⟩

instance : Mul (IEEEScalar K) := ⟨mul⟩

instance : Div (IEEEScalar K) := ⟨div⟩

end IEEEScalar

/-- An exponential with the range limits of a binary32 `float`, from an exact exponential
`e`.  For `x < -104` the exact value is below `2^-150`, half the smallest positive
`float`, and the result is `0`.  For `-2^-26 < x ≤ 0` the exact value is within half a
unit in the last place of `1`, and the result is `1`.  Elsewhere the result is `e x`. -/
def binary32Exp {K : Type} [LinearOrderedField K] (e : K → K) (x : K) : K :=
  if x < -104 then 0 else if -(1 / 67108864) < x ∧ x ≤ 0 then 1 else e x

/-! ## Shared lemmas -/

/-- One element of `c * af::exp(d / t) * w`. -/
theorem getElem?_scaled_exp {F E : Type} [Div F] [Mul F] (L : ArrayLayer F E) (c t w : F)
    (d : List F) (i : Nat) :
    (arrayMulScalar (scalarMulArray c (L.arrayExp (arrayDivScalar d t))) w)[i]? =
      (d[i]?).map fun x => c * L.exp (x / t) * w := by
  cases h : d[i]? <;>
    simp [arrayMulScalar, scalarMulArray, ArrayLayer.arrayExp, arrayDivScalar, h]

/-- Length of `c * af::exp(d / t) * w`. -/
theorem length_scaled_exp {F E : Type} [Div F] [Mul F] (L : ArrayLayer F E) (c t w : F)
    (d : List F) :
    (arrayMulScalar (scalarMulArray c (L.arrayExp (arrayDivScalar d t))) w).length = d.length := by
  simp [arrayMulScalar, scalarMulArray, ArrayLayer.arrayExp, arrayDivScalar]

/-- One element of the elementwise difference of two arrays. -/
theorem getElem?_zipWith_sub {F : Type} [Sub F] (a b : List F) (i : Nat) (x y : F)
    (ha : a[i]? = some x) (hb : b[i]? = some y) :
    (List.zipWith (fun x y => x - y) a b)[i]? = some (x - y) := by
  simp [List.getElem?_zipWith, ha, hb]

/-- `postTrigger` is the array layer's difference followed by the branch's scaling. -/
theorem postTrigger_eq_map {F E : Type} [Div F] [Mul F] [Neg F] (L : ArrayLayer F E)
    (r : StandardSTDP F) (lastPostSpk lastArr : List F) :
    r.postTrigger L lastPostSpk lastArr =
      (L.sub lastArr lastPostSpk).map fun d =>
        arrayMulScalar
          (scalarMulArray (if r.hebb then r.eta else -r.eta)
            (L.arrayExp (arrayDivScalar d (if r.hebb then r.tau_p else r.tau_m))))
          (if r.hebb then r.w_p else r.w_m) := by
  unfold StandardSTDP.postTrigger
  cases r.hebb <;> simp

/-- `preTriggerHebb` as one map over the arrival times. -/
theorem preTriggerHebb_eq_map {F E : Type} [Sub F] [Div F] [Mul F] [Neg F]
    (L : ArrayLayer F E) (r : StandardSTDP F) (lastPostSpk : Fin 4294967296)
    (lastArr : List F) :
    r.preTriggerHebb L lastPostSpk lastArr =
      lastArr.map
        (fun a => -r.eta * L.exp ((L.ofUInt32 lastPostSpk - a) / r.tau_m) * r.w_m) := by
  simp [StandardSTDP.preTriggerHebb, arrayMulScalar, scalarMulArray, ArrayLayer.arrayExp,
    arrayDivScalar, ArrayLayer.scalarSubArray]

/-- `preTriggerAntiHebb` as one map over the arrival times. -/
theorem preTriggerAntiHebb_eq_map {F E : Type} [Sub F] [Div F] [Mul F]
    (L : ArrayLayer F E) (r : StandardSTDP F) (lastPostSpk : Fin 4294967296)
    (lastArr : List F) :
    r.preTriggerAntiHebb L lastPostSpk lastArr =
      lastArr.map
        (fun a => r.eta * L.exp ((L.ofUInt32 lastPostSpk - a) / r.tau_p) * r.w_p) := by
  simp [StandardSTDP.preTriggerAntiHebb, arrayMulScalar, scalarMulArray, ArrayLayer.arrayExp,
    arrayDivScalar, ArrayLayer.scalarSubArray]

/-- The strict layer subtracts equal-length arrays element by element. -/
theorem strictLayer_elementwise {F E : Type} [Sub F] (exp : F → F)
    (ofUInt32 : Fin 4294967296 → F) (err : E) : (strictLayer exp ofUInt32 err).Elementwise :=
  fun a b h => by simp [strictLayer, h]

/-- The branch conditions of the polarity constructor, once the two enumerators are told
apart by their truth value. -/
theorem truthy_of_values {F : Type} (H : Header F)
    (hE : H.polarityValue Polarity.Excitatory ≠ 0)
    (hI : H.polarityValue Polarity.Inhibitory = 0) :
    H.truthy Polarity.Excitatory = true ∧ H.truthy Polarity.Inhibitory = false := by
  simp [Header.truthy, hE, hI]

/-! ## The three trigger formulas -/

/-- C1: for every rule and every pair of equal-length arrays, on an array layer that
subtracts equal-length arrays element by element, `postTrigger` returns a delta of the same
length with `delta[i] = eta * exp((lastArr[i] - lastPostSpk[i]) / tau_p) * w_p` when the
rule is Hebbian and `delta[i] = -eta * exp((lastArr[i] - lastPostSpk[i]) / tau_m) * w_m`
when it is anti-Hebbian. -/
theorem postTrigger_formula {F E : Type} [Sub F] [Div F] [Mul F] [Neg F]
    (L : ArrayLayer F E) (hL : L.Elementwise) (r : StandardSTDP F)
    (lastPostSpk lastArr : List F) (hlen : lastPostSpk.length = lastArr.length) :
    ∃ delta : List F, r.postTrigger L lastPostSpk lastArr = Except.ok delta ∧
      delta.length = lastArr.length ∧
      ∀ (i : Nat) (a p : F), lastArr[i]? = some a → lastPostSpk[i]? = some p →
        (r.hebb = true →
          delta[i]? = some (r.eta * L.exp ((a - p) / r.tau_p) * r.w_p)) ∧
        (r.hebb = false →
          delta[i]? = some (-r.eta * L.exp ((a - p) / r.tau_m) * r.w_m)) := by
  have hsub := hL lastArr lastPostSpk hlen.symm
  rw [postTrigger_eq_map, hsub]
  refine ⟨_, rfl, ?_, ?_⟩
  · rw [length_scaled_exp, List.length_zipWith, hlen, Nat.min_self]
  · intro i a p ha hp
    have hd := getElem?_zipWith_sub lastArr lastPostSpk i a p ha hp
    constructor <;> intro hh <;> rw [getElem?_scaled_exp, hd, hh] <;> rfl

/-- Witness for C1: a Hebbian rule over the reals with the real exponential, on a layer
that rejects unequal lengths, applied to two arrays of two timestamps. -/
theorem postTrigger_formula_witness :
    (strictLayer Real.exp (fun n => (n.val : ℝ)) STDPError.ShapeMismatch).Elementwise ∧
    ([5, 7] : List ℝ).length = ([3, 7] : List ℝ).length ∧
    ∃ delta : List ℝ,
      StandardSTDP.postTrigger
          (strictLayer Real.exp (fun n => (n.val : ℝ)) STDPError.ShapeMismatch)
          ⟨Polarity.Excitatory, Polarity.Excitatory, 1 / 100, true, true, 1, 1, 20, 20⟩
          [5, 7] [3, 7] = Except.ok delta ∧
      delta.length = ([3, 7] : List ℝ).length ∧
      ∀ (i : Nat) (a p : ℝ), ([3, 7] : List ℝ)[i]? = some a → ([5, 7] : List ℝ)[i]? = some p →
        (true = true → delta[i]? = some (1 / 100 * Real.exp ((a - p) / 20) * 1)) ∧
        (true = false → delta[i]? = some (-(1 / 100) * Real.exp ((a - p) / 20) * 1)) :=
  ⟨strictLayer_elementwise _ _ _, rfl,
    postTrigger_formula _ (strictLayer_elementwise _ _ _)
      ⟨Polarity.Excitatory, Polarity.Excitatory, 1 / 100, true, true, 1, 1, 20, 20⟩
      [5, 7] [3, 7] rfl⟩

/-- C2: for every rule, every `uint32_t` scalar `lastPostSpk` and every array `lastArr`,
`preTriggerHebb` returns the array whose element `i` is
`-eta * exp((lastPostSpk - lastArr[i]) / tau_m) * w_m`. -/
theorem preTriggerHebb_formula {F E : Type} [Sub F] [Div F] [Mul F] [Neg F]
    (L : ArrayLayer F E) (r : StandardSTDP F) (lastPostSpk : Fin 4294967296)
    (lastArr : List F) :
    (r.preTriggerHebb L lastPostSpk lastArr).length = lastArr.length ∧
      ∀ i : Nat, (r.preTriggerHebb L lastPostSpk lastArr)[i]? =
        (lastArr[i]?).map
          (fun a => -r.eta * L.exp ((L.ofUInt32 lastPostSpk - a) / r.tau_m) * r.w_m) := by
  rw [preTriggerHebb_eq_map]
  exact ⟨List.length_map _ _, fun i => List.getElem?_map _ _ _⟩

/-- C3: for every rule, every `uint32_t` scalar `lastPostSpk` and every array `lastArr`,
`preTriggerAntiHebb` returns the array whose element `i` is
`eta * exp((lastPostSpk - lastArr[i]) / tau_p) * w_p`. -/
theorem preTriggerAntiHebb_formula {F E : Type} [Sub F] [Div F] [Mul F]
    (L : ArrayLayer F E) (r : StandardSTDP F) (lastPostSpk : Fin 4294967296)
    (lastArr : List F) :
    (r.preTriggerAntiHebb L lastPostSpk lastArr).length = lastArr.length ∧
      ∀ i : Nat, (r.preTriggerAntiHebb L lastPostSpk lastArr)[i]? =
        (lastArr[i]?).map
          (fun a => r.eta * L.exp ((L.ofUInt32 lastPostSpk - a) / r.tau_p) * r.w_p) := by
  rw [preTriggerAntiHebb_eq_map]
  exact ⟨List.length_map _ _, fun i => List.getElem?_map _ _ _⟩

/-! ## Construction -/

/-- C4, as stated, fails: the eight-argument constructor called with `eta = 0`,
`tau_p = -1` and `tau_m = 0`, and the three-argument constructor called with `eta = -1`,
both return a rule, which is not the failure `InvalidParameter`. -/
theorem ctor_accepts_nonpositive_parameters :
    ((0 : ℚ) ≤ 0 ∧ (-1 : ℚ) ≤ 0) ∧
    StandardSTDP.ctor8 sampleStorage Polarity.Excitatory Polarity.Excitatory 0 true 1 1 (-1) 0 =
      Except.ok ⟨Polarity.Excitatory, Polarity.Excitatory, 0, false, true, 1, 1, -1, 0⟩ ∧
    StandardSTDP.ctor8 sampleStorage Polarity.Excitatory Polarity.Excitatory 0 true 1 1 (-1) 0 ≠
      Except.error STDPError.InvalidParameter ∧
    StandardSTDP.ctor3 sampleHeader sampleStorage Polarity.Excitatory Polarity.Excitatory (-1) =
      Except.ok ⟨Polarity.Excitatory, Polarity.Excitatory, -1, true, false, 1, 1, 20, 20⟩ ∧
    StandardSTDP.ctor3 sampleHeader sampleStorage Polarity.Excitatory Polarity.Excitatory (-1) ≠
      Except.error STDPError.InvalidParameter := by
  have h3 : StandardSTDP.ctor3 sampleHeader sampleStorage Polarity.Excitatory
      Polarity.Excitatory (-1) =
      Except.ok ⟨Polarity.Excitatory, Polarity.Excitatory, -1, true, false, 1, 1, 20, 20⟩ := by
    simp [StandardSTDP.ctor3, StandardSTDP.ctor4, Header.truthy, sampleHeader, sampleStorage]
  refine ⟨⟨le_refl _, by norm_num⟩, rfl, ?_, h3, ?_⟩
  · simp [StandardSTDP.ctor8]
  · rw [h3]
    simp

/-- C4, amended: neither constructor validates its arguments.  For every `eta`, `tau_p` and
`tau_m`, values at or below zero included, the eight-argument constructor returns a rule
holding exactly these values, and the polarity constructors return a rule holding the
given `eta`, whatever it is. -/
theorem ctor_never_fails {F : Type} (H : Header F) (self : StandardSTDP F)
    (s t : Polarity) (eta : F) (hebbian : Bool) (w_p w_m tau_p tau_m : F) :
    (∃ r, StandardSTDP.ctor8 self s t eta hebbian w_p w_m tau_p tau_m = Except.ok r ∧
        r.eta = eta ∧ r.tau_p = tau_p ∧ r.tau_m = tau_m) ∧
    (∃ r, StandardSTDP.ctor4 H self s t eta hebbian = Except.ok r ∧ r.eta = eta) ∧
    (∃ r, StandardSTDP.ctor3 H self s t eta = Except.ok r ∧ r.eta = eta) := by
  refine ⟨⟨_, rfl, rfl, rfl, rfl⟩, ?_, ?_⟩
  · unfold StandardSTDP.ctor4
    split_ifs <;> exact ⟨_, rfl, rfl⟩
  · unfold StandardSTDP.ctor3 StandardSTDP.ctor4
    split_ifs <;> exact ⟨_, rfl, rfl⟩

/-! ## Arrays of different lengths -/

/-- C6: with `Excitatory` the non-zero enumerator and `Inhibitory` the zero one, the
polarity constructor returns, for each of the four (source, target) combinations and
whatever the storage, `eta` and flag it is called with, a rule whose
`(w_p, w_m, tau_p, tau_m)` is the matching preset: `DEF_EE_*` for (Excitatory, Excitatory),
`DEF_EI_*` for (Excitatory, Inhibitory), `DEF_IE_*` for (Inhibitory, Excitatory) and
`DEF_II_*` for (Inhibitory, Inhibitory). -/
theorem ctor4_resolves_preset {F : Type} (H : Header F)
    (hE : H.polarityValue Polarity.Excitatory ≠ 0)
    (hI : H.polarityValue Polarity.Inhibitory = 0)
    (self : StandardSTDP F) (eta : F) (hebbian : Bool) :
    (StandardSTDP.ctor4 H self Polarity.Excitatory Polarity.Excitatory eta hebbian).map
        (fun r => (r.w_p, r.w_m, r.tau_p, r.tau_m)) =
      Except.ok (H.DEF_EE_W_PLUS, H.DEF_EE_W_MINUS, H.DEF_EE_TAU_P, H.DEF_EE_TAU_M) ∧
    (StandardSTDP.ctor4 H self Polarity.Excitatory Polarity.Inhibitory eta hebbian).map
        (fun r => (r.w_p, r.w_m, r.tau_p, r.tau_m)) =
      Except.ok (H.DEF_EI_W_PLUS, H.DEF_EI_W_MINUS, H.DEF_EI_TAU_P, H.DEF_EI_TAU_M) ∧
    (StandardSTDP.ctor4 H self Polarity.Inhibitory Polarity.Excitatory eta hebbian).map
        (fun r => (r.w_p, r.w_m, r.tau_p, r.tau_m)) =
      Except.ok (H.DEF_IE_W_PLUS, H.DEF_IE_W_MINUS, H.DEF_IE_TAU_P, H.DEF_IE_TAU_M) ∧
    (StandardSTDP.ctor4 H self Polarity.Inhibitory Polarity.Inhibitory eta hebbian).map
        (fun r => (r.w_p, r.w_m, r.tau_p, r.tau_m)) =
      Except.ok (H.DEF_II_W_PLUS, H.DEF_II_W_MINUS, H.DEF_II_TAU_P, H.DEF_II_TAU_M) := by
  obtain ⟨hT, hFalse⟩ := truthy_of_values H hE hI
  refine ⟨?_, ?_, ?_, ?_⟩ <;> simp [StandardSTDP.ctor4, hT, hFalse, Except.map]

/-- Witness for C6: the sample header (`Excitatory = 1`, `Inhibitory = 0`, four different
presets), the sample storage, `eta = 1/100` and the flag `true`. -/
theorem ctor4_resolves_preset_witness :
    (sampleHeader.polarityValue Polarity.Excitatory ≠ 0 ∧
      sampleHeader.polarityValue Polarity.Inhibitory = 0) ∧
    (StandardSTDP.ctor4 sampleHeader sampleStorage Polarity.Excitatory Polarity.Excitatory
        (1 / 100) true).map (fun r => (r.w_p, r.w_m, r.tau_p, r.tau_m)) =
      Except.ok (1, 1, 20, 20) ∧
    (StandardSTDP.ctor4 sampleHeader sampleStorage Polarity.Excitatory Polarity.Inhibitory
        (1 / 100) true).map (fun r => (r.w_p, r.w_m, r.tau_p, r.tau_m)) =
      Except.ok (2, 2, 21, 21) ∧
    (StandardSTDP.ctor4 sampleHeader sampleStorage Polarity.Inhibitory Polarity.Excitatory
        (1 / 100) true).map (fun r => (r.w_p, r.w_m, r.tau_p, r.tau_m)) =
      Except.ok (3, 3, 22, 22) ∧
    (StandardSTDP.ctor4 sampleHeader sampleStorage Polarity.Inhibitory Polarity.Inhibitory
        (1 / 100) true).map (fun r => (r.w_p, r.w_m, r.tau_p, r.tau_m)) =
      Except.ok (4, 4, 23, 23) :=
  ⟨⟨by decide, by decide⟩,
    ctor4_resolves_preset sampleHeader (by decide) (by decide) sampleStorage (1 / 100) true⟩

/-- C7 at a failing input: with `_hebbian = true` and a storage whose `hebb` member holds
`false`, the three-argument constructor called with (Excitatory, Excitatory, 1/100) leaves
`hebb = false`, because the flag goes to the member `heb`; the eight-argument constructor
called with the same polarities and `eta`, the flag `_hebbian` and the EE preset sets
`hebb = true`.  The two rules agree on the other seven fields and differ on the regime. -/
theorem ctor3_regime_differs_from_ctor8 :
    StandardSTDP.ctor3 sampleHeader sampleStorage Polarity.Excitatory Polarity.Excitatory
        (1 / 100) =
      Except.ok ⟨Polarity.Excitatory, Polarity.Excitatory, 1 / 100, true, false, 1, 1, 20, 20⟩ ∧
    StandardSTDP.ctor8 sampleStorage Polarity.Excitatory Polarity.Excitatory (1 / 100)
        sampleHeader._hebbian sampleHeader.DEF_EE_W_PLUS sampleHeader.DEF_EE_W_MINUS
        sampleHeader.DEF_EE_TAU_P sampleHeader.DEF_EE_TAU_M =
      Except.ok ⟨Polarity.Excitatory, Polarity.Excitatory, 1 / 100, false, true, 1, 1, 20, 20⟩ ∧
    (⟨Polarity.Excitatory, Polarity.Excitatory, 1 / 100, true, false, 1, 1, 20, 20⟩ :
        StandardSTDP ℚ).hebb ≠
      (⟨Polarity.Excitatory, Polarity.Excitatory, 1 / 100, false, true, 1, 1, 20, 20⟩ :
        StandardSTDP ℚ).hebb := by
  refine ⟨?_, rfl, by decide⟩
  simp [StandardSTDP.ctor3, StandardSTDP.ctor4, Header.truthy, sampleHeader, sampleStorage]

/-- C8: the eight-argument constructor stores every argument verbatim.  For all arguments
and whatever the storage held, it returns a rule whose source polarity, target polarity,
`eta`, regime flag `hebb`, `w_p`, `w_m`, `tau_p` and `tau_m` are the eight arguments; the
only member it leaves as found is `heb`.  It takes no header, so no preset reaches it. -/
theorem ctor8_stores_arguments {F : Type} (self : StandardSTDP F) (s t : Polarity) (eta : F)
    (hebbian : Bool) (w_p w_m tau_p tau_m : F) :
    StandardSTDP.ctor8 self s t eta hebbian w_p w_m tau_p tau_m =
        Except.ok ⟨s, t, eta, self.heb, hebbian, w_p, w_m, tau_p, tau_m⟩ ∧
    ∃ r, StandardSTDP.ctor8 self s t eta hebbian w_p w_m tau_p tau_m = Except.ok r ∧
      r.srcPol = s ∧ r.tarPol = t ∧ r.eta = eta ∧ r.hebb = hebbian ∧
      r.w_p = w_p ∧ r.w_m = w_m ∧ r.tau_p = tau_p ∧ r.tau_m = tau_m :=
  ⟨rfl, _, rfl, rfl, rfl, rfl, rfl, rfl, rfl, rfl, rfl⟩

/-! ## Signs of the presynaptic triggers -/

/-- C9: over a linearly ordered field with a non-negative exponential, for every rule with
`eta > 0`, `w_m > 0` and `tau_m > 0`, whatever its two flags, every element of the
`preTriggerHebb` output is at most zero, for every scalar and every array. -/
theorem preTriggerHebb_nonpos {F E : Type} [LinearOrderedField F] (L : ArrayLayer F E)
    (hexp : ∀ x : F, 0 ≤ L.exp x) (r : StandardSTDP F)
    (h_eta : 0 < r.eta) (h_w_m : 0 < r.w_m) (_h_tau_m : 0 < r.tau_m)
    (heb hebb : Bool) (lastPostSpk : Fin 4294967296) (lastArr : List F) :
    ∀ d ∈ StandardSTDP.preTriggerHebb L { r with heb := heb, hebb := hebb } lastPostSpk lastArr,
      d ≤ 0 := by
  intro d hd
  rw [preTriggerHebb_eq_map, List.mem_map] at hd
  obtain ⟨a, _, rfl⟩ := hd
  have h1 : -r.eta * L.exp ((L.ofUInt32 lastPostSpk - a) / r.tau_m) ≤ 0 :=
    mul_nonpos_of_nonpos_of_nonneg (by linarith) (hexp _)
  exact mul_nonpos_of_nonpos_of_nonneg h1 h_w_m.le

/-- Witness for C9: real arithmetic with the real exponential, `eta = 1/100`, `w_m = 1`,
`tau_m = 20`, the flags set to Hebbian, post-spike time 5 and arrival times 3 and 7. -/
theorem preTriggerHebb_nonpos_witness :
    (∀ x : ℝ, 0 ≤ Real.exp x) ∧ ((0 : ℝ) < 1 / 100 ∧ (0 : ℝ) < 1 ∧ (0 : ℝ) < 20) ∧
    ∀ d ∈ StandardSTDP.preTriggerHebb
        (strictLayer Real.exp (fun n => (n.val : ℝ)) STDPError.ShapeMismatch)
        ⟨Polarity.Excitatory, Polarity.Inhibitory, 1 / 100, true, true, 1, 1, 20, 20⟩
        5 [3, 7],
      d ≤ 0 :=
  ⟨fun x => (Real.exp_pos x).le, ⟨by norm_num, by norm_num, by norm_num⟩,
    preTriggerHebb_nonpos
      (strictLayer Real.exp (fun n => (n.val : ℝ)) STDPError.ShapeMismatch)
      (fun x => (Real.exp_pos x).le)
      ⟨Polarity.Excitatory, Polarity.Inhibitory, 1 / 100, false, false, 1, 1, 20, 20⟩
      (by norm_num) (by norm_num) (by norm_num) true true 5 [3, 7]⟩

/-- C10: over a linearly ordered field with a non-negative exponential, for every rule
with `eta > 0`, `w_p > 0` and `tau_p > 0`, whatever its two flags, every element of the
`preTriggerAntiHebb` output is at least zero, for every scalar and every array. -/
theorem preTriggerAntiHebb_nonneg {F E : Type} [LinearOrderedField F] (L : ArrayLayer F E)
    (hexp : ∀ x : F, 0 ≤ L.exp x) (r : StandardSTDP F)
    (h_eta : 0 < r.eta) (h_w_p : 0 < r.w_p) (_h_tau_p : 0 < r.tau_p)
    (heb hebb : Bool) (lastPostSpk : Fin 4294967296) (lastArr : List F) :
    ∀ d ∈ StandardSTDP.preTriggerAntiHebb L { r with heb := heb, hebb := hebb }
        lastPostSpk lastArr,
      0 ≤ d := by
  intro d hd
  rw [preTriggerAntiHebb_eq_map, List.mem_map] at hd
  obtain ⟨a, _, rfl⟩ := hd
  exact mul_nonneg (mul_nonneg h_eta.le (hexp _)) h_w_p.le

/-- Witness for C10: real arithmetic with the real exponential, `eta = 1/100`, `w_p = 1`,
`tau_p = 20`, the flags set to anti-Hebbian, post-spike time 5 and arrival times 3 and 7. -/
theorem preTriggerAntiHebb_nonneg_witness :
    (∀ x : ℝ, 0 ≤ Real.exp x) ∧ ((0 : ℝ) < 1 / 100 ∧ (0 : ℝ) < 1 ∧ (0 : ℝ) < 20) ∧
    ∀ d ∈ StandardSTDP.preTriggerAntiHebb
        (strictLayer Real.exp (fun n => (n.val : ℝ)) STDPError.ShapeMismatch)
        ⟨Polarity.Excitatory, Polarity.Inhibitory, 1 / 100, false, false, 1, 1, 20, 20⟩
        5 [3, 7],
      0 ≤ d :=
  ⟨fun x => (Real.exp_pos x).le, ⟨by norm_num, by norm_num, by norm_num⟩,
    preTriggerAntiHebb_nonneg
      (strictLayer Real.exp (fun n => (n.val : ℝ)) STDPError.ShapeMismatch)
      (fun x => (Real.exp_pos x).le)
      ⟨Polarity.Excitatory, Polarity.Inhibitory, 1 / 100, true, true, 1, 1, 20, 20⟩
      (by norm_num) (by norm_num) (by norm_num) false false 5 [3, 7]⟩

/-! ## The regime flag and the presynaptic triggers -/

/-- C11: two rules that agree on `eta`, `w_p`, `w_m`, `tau_p` and `tau_m` (and may differ in
the regime flag `hebb`, in `heb` and in the polarities) give the same `preTriggerHebb`
output and the same `preTriggerAntiHebb` output on every scalar and every array. -/
theorem preTriggers_ignore_regime {F E : Type} [Sub F] [Div F] [Mul F] [Neg F]
    (L : ArrayLayer F E) (r1 r2 : StandardSTDP F)
    (h_eta : r1.eta = r2.eta) (h_w_p : r1.w_p = r2.w_p) (h_w_m : r1.w_m = r2.w_m)
    (h_tau_p : r1.tau_p = r2.tau_p) (h_tau_m : r1.tau_m = r2.tau_m)
    (lastPostSpk : Fin 4294967296) (lastArr : List F) :
    r1.preTriggerHebb L lastPostSpk lastArr = r2.preTriggerHebb L lastPostSpk lastArr ∧
    r1.preTriggerAntiHebb L lastPostSpk lastArr =
      r2.preTriggerAntiHebb L lastPostSpk lastArr := by
  simp only [preTriggerHebb_eq_map, preTriggerAntiHebb_eq_map, h_eta, h_w_p, h_w_m, h_tau_p,
    h_tau_m, and_self]

/-- Witness for C11: a Hebbian and an anti-Hebbian rule over the reals with the same
`eta = 1/100`, amplitudes 1 and 2 and time constants 20 and 30, post-spike time 5 and
arrival times 3 and 7. -/
theorem preTriggers_ignore_regime_witness :
    (((1 / 100 : ℝ) = 1 / 100 ∧ (1 : ℝ) = 1 ∧ (2 : ℝ) = 2) ∧ (20 : ℝ) = 20 ∧ (30 : ℝ) = 30) ∧
    StandardSTDP.preTriggerHebb
        (strictLayer Real.exp (fun n => (n.val : ℝ)) STDPError.ShapeMismatch)
        ⟨Polarity.Excitatory, Polarity.Inhibitory, 1 / 100, true, true, 1, 2, 20, 30⟩
        5 [3, 7] =
      StandardSTDP.preTriggerHebb
        (strictLayer Real.exp (fun n => (n.val : ℝ)) STDPError.ShapeMismatch)
        ⟨Polarity.Excitatory, Polarity.Inhibitory, 1 / 100, false, false, 1, 2, 20, 30⟩
        5 [3, 7] ∧
    StandardSTDP.preTriggerAntiHebb
        (strictLayer Real.exp (fun n => (n.val : ℝ)) STDPError.ShapeMismatch)
        ⟨Polarity.Excitatory, Polarity.Inhibitory, 1 / 100, true, true, 1, 2, 20, 30⟩
        5 [3, 7] =
      StandardSTDP.preTriggerAntiHebb
        (strictLayer Real.exp (fun n => (n.val : ℝ)) STDPError.ShapeMismatch)
        ⟨Polarity.Excitatory, Polarity.Inhibitory, 1 / 100, false, false, 1, 2, 20, 30⟩
        5 [3, 7] :=
  ⟨⟨⟨rfl, rfl, rfl⟩, rfl, rfl⟩,
    preTriggers_ignore_regime
      (strictLayer Real.exp (fun n => (n.val : ℝ)) STDPError.ShapeMismatch)
      ⟨Polarity.Excitatory, Polarity.Inhibitory, 1 / 100, true, true, 1, 2, 20, 30⟩
      ⟨Polarity.Excitatory, Polarity.Inhibitory, 1 / 100, false, false, 1, 2, 20, 30⟩
      rfl rfl rfl rfl rfl 5 [3, 7]⟩

/-! ## Equal timestamps -/

/-- Every element of `c * af::exp(d / t) * w` is the scaled exponential of an element of
`d`. -/
theorem mem_scaled_exp {F E : Type} [Div F] [Mul F] (L : ArrayLayer F E) (c t w : F)
    (d : List F) (y : F)
    (hy : y ∈ arrayMulScalar (scalarMulArray c (L.arrayExp (arrayDivScalar d t))) w) :
    ∃ x ∈ d, y = c * L.exp (x / t) * w := by
  simp only [arrayMulScalar, scalarMulArray, ArrayLayer.arrayExp, arrayDivScalar, List.map_map,
    List.mem_map, Function.comp] at hy
  obtain ⟨x, hx, rfl⟩ := hy
  exact ⟨x, hx, rfl⟩

/-- The elementwise difference of an array of finite timestamps with itself holds only
the finite zero. -/
theorem zipWith_sub_fin_self {K : Type} [LinearOrderedField K] (t : List K) :
    ∀ x ∈ List.zipWith (fun x y : IEEEScalar K => x - y)
        (t.map IEEEScalar.fin) (t.map IEEEScalar.fin),
      x = IEEEScalar.fin 0 := by
  induction t with
  | nil => simp
  | cons a t ih =>
    intro x hx
    rw [List.map_cons, List.zipWith_cons_cons, List.mem_cons] at hx
    rcases hx with rfl | hx
    · show IEEEScalar.fin (a - a) = IEEEScalar.fin 0
      rw [sub_self]
    · exact ih x hx

/-- The finite zero divided by a non-zero finite number is the finite zero. -/
theorem fin_zero_div_fin {K : Type} [LinearOrderedField K] (t : K) (ht : t ≠ 0) :
    (IEEEScalar.fin 0 / IEEEScalar.fin t : IEEEScalar K) = IEEEScalar.fin 0 := by
  show IEEEScalar.div (IEEEScalar.fin 0) (IEEEScalar.fin t) = IEEEScalar.fin 0
  simp [IEEEScalar.div, ht]

/-- C12, as stated, fails at a zero time constant: a Hebbian rule with `eta = 1/100`,
`w_p = 1` and `tau_p = 0`, called with arrival times equal to the post-spike times 3 and 7,
returns NaN in both elements (the exponent is `0 / 0`), not `eta * w_p`. -/
theorem postTrigger_equal_times_zero_tau :
    StandardSTDP.postTrigger
        (strictLayer (IEEEScalar.exp Real.exp) (fun n => IEEEScalar.fin (n.val : ℝ))
          STDPError.ShapeMismatch)
        ⟨Polarity.Excitatory, Polarity.Excitatory, IEEEScalar.fin (1 / 100), true, true,
          IEEEScalar.fin 1, IEEEScalar.fin 1, IEEEScalar.fin 0, IEEEScalar.fin 20⟩
        [IEEEScalar.fin 3, IEEEScalar.fin 7] [IEEEScalar.fin 3, IEEEScalar.fin 7] =
      Except.ok [IEEEScalar.nan, IEEEScalar.nan] ∧
    (IEEEScalar.nan : IEEEScalar ℝ) ≠ IEEEScalar.fin (1 / 100 * 1) := by
  refine ⟨?_, fun h => IEEEScalar.noConfusion h⟩
  have h0 : ∀ x : ℝ, (IEEEScalar.fin x - IEEEScalar.fin x : IEEEScalar ℝ) / IEEEScalar.fin 0 =
      IEEEScalar.nan := by
    intro x
    show IEEEScalar.div (IEEEScalar.fin (x - x)) (IEEEScalar.fin 0) = IEEEScalar.nan
    simp [IEEEScalar.div]
  have h1 : ∀ c w : IEEEScalar ℝ, c * IEEEScalar.exp Real.exp IEEEScalar.nan * w =
      IEEEScalar.nan := by
    intro c w
    show IEEEScalar.mul (IEEEScalar.mul c IEEEScalar.nan) w = IEEEScalar.nan
    cases c <;> cases w <;> rfl
  simp [StandardSTDP.postTrigger, strictLayer, arrayMulScalar, scalarMulArray,
    ArrayLayer.arrayExp, arrayDivScalar, Except.map, h0, h1]

/-- C12, amended: with finite scalars, an exponential with `exp 0 = 1` and an array layer
that subtracts equal-length arrays element by element, when the arrival times equal the
(finite) post-spike times `postTrigger` returns an array of the same length whose every
element is `eta * w_p` for a Hebbian rule with `tau_p ≠ 0` and `-eta * w_m` for an
anti-Hebbian rule with `tau_m ≠ 0`, whatever the non-zero time constant is; with `w_p = 1`
every element is `eta`, and with `w_m = 1` every element is `-eta`. -/
theorem postTrigger_equal_times {K E : Type} [LinearOrderedField K]
    (L : ArrayLayer (IEEEScalar K) E) (hL : L.Elementwise)
    (hexp0 : L.exp (IEEEScalar.fin 0) = IEEEScalar.fin 1)
    (r : StandardSTDP (IEEEScalar K)) (eta : K) (h_eta : r.eta = IEEEScalar.fin eta)
    (times : List K) :
    ∃ delta : List (IEEEScalar K),
      r.postTrigger L (times.map IEEEScalar.fin) (times.map IEEEScalar.fin) = Except.ok delta ∧
      delta.length = times.length ∧
      (∀ w_p tau_p : K, r.hebb = true → r.w_p = IEEEScalar.fin w_p →
        r.tau_p = IEEEScalar.fin tau_p → tau_p ≠ 0 →
        (∀ d ∈ delta, d = IEEEScalar.fin (eta * w_p)) ∧
        (w_p = 1 → ∀ d ∈ delta, d = IEEEScalar.fin eta)) ∧
      (∀ w_m tau_m : K, r.hebb = false → r.w_m = IEEEScalar.fin w_m →
        r.tau_m = IEEEScalar.fin tau_m → tau_m ≠ 0 →
        (∀ d ∈ delta, d = IEEEScalar.fin (-eta * w_m)) ∧
        (w_m = 1 → ∀ d ∈ delta, d = IEEEScalar.fin (-eta))) := by
  rw [postTrigger_eq_map, hL _ _ rfl]
  have key : ∀ c t w : K, t ≠ 0 →
      ∀ d ∈ arrayMulScalar (scalarMulArray (IEEEScalar.fin c) (L.arrayExp
        (arrayDivScalar (List.zipWith (fun x y : IEEEScalar K => x - y)
          (times.map IEEEScalar.fin) (times.map IEEEScalar.fin)) (IEEEScalar.fin t))))
        (IEEEScalar.fin w),
      d = IEEEScalar.fin (c * w) := by
    intro c t w ht d hd
    obtain ⟨x, hx, rfl⟩ := mem_scaled_exp L _ _ _ _ d hd
    rw [zipWith_sub_fin_self times x hx, fin_zero_div_fin t ht, hexp0]
    show IEEEScalar.fin (c * 1 * w) = IEEEScalar.fin (c * w)
    rw [mul_one]
  have hneg : -r.eta = IEEEScalar.fin (-eta) := by
    rw [h_eta]
    rfl
  refine ⟨_, rfl, ?_, ?_, ?_⟩
  · rw [length_scaled_exp, List.length_zipWith, List.length_map, Nat.min_self]
  · intro w_p tau_p hh hw ht hne
    rw [hh, if_pos rfl, if_pos rfl, if_pos rfl, h_eta, hw, ht]
    refine ⟨key eta tau_p w_p hne, ?_⟩
    intro h1 d hd
    rw [key eta tau_p w_p hne d hd, h1, mul_one]
  · intro w_m tau_m hh hw ht hne
    rw [hh, hneg, hw, ht]
    refine ⟨key (-eta) tau_m w_m hne, ?_⟩
    intro h1 d hd
    rw [key (-eta) tau_m w_m hne d hd, h1, mul_one]

/-- Witness for C12: finite real scalars with the real exponential, a Hebbian rule with
`eta = 1/100`, `w_p = 1`, `tau_p = 20` (and `tau_m = 0`, which this regime does not use),
and the timestamps 3 and 7 on both sides: every element of the delta is `1/100`. -/
theorem postTrigger_equal_times_witness :
    ((strictLayer (IEEEScalar.exp Real.exp) (fun n => IEEEScalar.fin (n.val : ℝ))
        STDPError.ShapeMismatch).Elementwise ∧
      IEEEScalar.exp Real.exp (IEEEScalar.fin 0) = IEEEScalar.fin 1 ∧
      (IEEEScalar.fin (1 / 100) : IEEEScalar ℝ) = IEEEScalar.fin (1 / 100)) ∧
    ∃ delta : List (IEEEScalar ℝ),
      StandardSTDP.postTrigger
          (strictLayer (IEEEScalar.exp Real.exp) (fun n => IEEEScalar.fin (n.val : ℝ))
            STDPError.ShapeMismatch)
          ⟨Polarity.Excitatory, Polarity.Excitatory, IEEEScalar.fin (1 / 100), true, true,
            IEEEScalar.fin 1, IEEEScalar.fin 1, IEEEScalar.fin 20, IEEEScalar.fin 0⟩
          (([3, 7] : List ℝ).map IEEEScalar.fin) (([3, 7] : List ℝ).map IEEEScalar.fin) =
        Except.ok delta ∧
      delta.length = ([3, 7] : List ℝ).length ∧
      (∀ w_p tau_p : ℝ, true = true → (IEEEScalar.fin 1 : IEEEScalar ℝ) = IEEEScalar.fin w_p →
        (IEEEScalar.fin 20 : IEEEScalar ℝ) = IEEEScalar.fin tau_p → tau_p ≠ 0 →
        (∀ d ∈ delta, d = IEEEScalar.fin (1 / 100 * w_p)) ∧
        (w_p = 1 → ∀ d ∈ delta, d = IEEEScalar.fin (1 / 100))) ∧
      (∀ w_m tau_m : ℝ, true = false → (IEEEScalar.fin 1 : IEEEScalar ℝ) = IEEEScalar.fin w_m →
        (IEEEScalar.fin 0 : IEEEScalar ℝ) = IEEEScalar.fin tau_m → tau_m ≠ 0 →
        (∀ d ∈ delta, d = IEEEScalar.fin (-(1 / 100) * w_m)) ∧
        (w_m = 1 → ∀ d ∈ delta, d = IEEEScalar.fin (-(1 / 100)))) :=
  ⟨⟨strictLayer_elementwise _ _ _, congrArg IEEEScalar.fin Real.exp_zero, rfl⟩,
    postTrigger_equal_times
      (strictLayer (IEEEScalar.exp Real.exp) (fun n => IEEEScalar.fin (n.val : ℝ))
        STDPError.ShapeMismatch)
      (strictLayer_elementwise _ _ _) (congrArg IEEEScalar.fin Real.exp_zero)
      ⟨Polarity.Excitatory, Polarity.Excitatory, IEEEScalar.fin (1 / 100), true, true,
        IEEEScalar.fin 1, IEEEScalar.fin 1, IEEEScalar.fin 20, IEEEScalar.fin 0⟩
      (1 / 100) rfl [3, 7]⟩

/-! ## Elementwise independence -/

/-- A permuted array of `n` elements has `n` elements. -/
theorem length_permuteArray {F : Type} {n : Nat} (p : Equiv.Perm (Fin n)) (l : List F)
    (h : l.length = n) : (permuteArray p l h).length = n := by
  simp [permuteArray]

/-- Mapping a function over a permuted array permutes the mapped array. -/
theorem map_permuteArray {F G : Type} {n : Nat} (p : Equiv.Perm (Fin n)) (l : List F)
    (h : l.length = n) (f : F → G) :
    (permuteArray p l h).map f = permuteArray p (l.map f) ((List.length_map l f).trans h) := by
  apply List.ext_getElem
  · simp [permuteArray]
  · intro i h1 h2
    simp [permuteArray]

/-- Combining two arrays permuted alike, element by element, permutes the combination. -/
theorem zipWith_permuteArray {F G : Type} {n : Nat} (p : Equiv.Perm (Fin n)) (a b : List F)
    (ha : a.length = n) (hb : b.length = n) (g : F → F → G) :
    List.zipWith g (permuteArray p a ha) (permuteArray p b hb) =
      permuteArray p (List.zipWith g a b) (by simp [ha, hb]) := by
  apply List.ext_getElem
  · simp [permuteArray]
  · intro i h1 h2
    simp [permuteArray]

/-- C14: on an array layer that subtracts equal-length arrays element by element, for every
rule, every two arrays of `n` elements and every permutation `p` of the `n` indices,
`postTrigger` applied to both arrays permuted by `p` returns the delta of the original
arrays permuted by `p`. -/
theorem postTrigger_permute {F E : Type} [Sub F] [Div F] [Mul F] [Neg F]
    (L : ArrayLayer F E) (hL : L.Elementwise) (r : StandardSTDP F) (n : Nat)
    (p : Equiv.Perm (Fin n)) (lastPostSpk lastArr : List F)
    (hp : lastPostSpk.length = n) (ha : lastArr.length = n) :
    ∃ (delta : List F) (hd : delta.length = n),
      r.postTrigger L lastPostSpk lastArr = Except.ok delta ∧
      r.postTrigger L (permuteArray p lastPostSpk hp) (permuteArray p lastArr ha) =
        Except.ok (permuteArray p delta hd) := by
  have hlen : lastArr.length = lastPostSpk.length := ha.trans hp.symm
  have hlen2 : (permuteArray p lastArr ha).length = (permuteArray p lastPostSpk hp).length := by
    rw [length_permuteArray, length_permuteArray]
  have hd : (arrayMulScalar
      (scalarMulArray (if r.hebb then r.eta else -r.eta)
        (L.arrayExp (arrayDivScalar (List.zipWith (fun x y => x - y) lastArr lastPostSpk)
          (if r.hebb then r.tau_p else r.tau_m))))
      (if r.hebb then r.w_p else r.w_m)).length = n := by
    rw [length_scaled_exp, List.length_zipWith, ha, hp, Nat.min_self]
  refine ⟨_, hd, ?_, ?_⟩
  · rw [postTrigger_eq_map, hL lastArr lastPostSpk hlen]
    rfl
  · rw [postTrigger_eq_map, hL _ _ hlen2, zipWith_permuteArray]
    simp only [Except.map, arrayMulScalar, scalarMulArray, ArrayLayer.arrayExp, arrayDivScalar,
      map_permuteArray]

/-- Witness for C14: real arithmetic with the real exponential, a Hebbian rule, the two
arrays of two timestamps `[5, 7]` and `[3, 7]`, and the permutation that swaps the two
indices. -/
theorem postTrigger_permute_witness :
    ((strictLayer Real.exp (fun n => (n.val : ℝ)) STDPError.ShapeMismatch).Elementwise ∧
      ([5, 7] : List ℝ).length = 2 ∧ ([3, 7] : List ℝ).length = 2) ∧
    ∃ (delta : List ℝ) (hd : delta.length = 2),
      StandardSTDP.postTrigger
          (strictLayer Real.exp (fun n => (n.val : ℝ)) STDPError.ShapeMismatch)
          ⟨Polarity.Excitatory, Polarity.Excitatory, 1 / 100, true, true, 1, 1, 20, 20⟩
          [5, 7] [3, 7] = Except.ok delta ∧
      StandardSTDP.postTrigger
          (strictLayer Real.exp (fun n => (n.val : ℝ)) STDPError.ShapeMismatch)
          ⟨Polarity.Excitatory, Polarity.Excitatory, 1 / 100, true, true, 1, 1, 20, 20⟩
          (permuteArray (Equiv.swap (0 : Fin 2) 1) [5, 7] rfl)
          (permuteArray (Equiv.swap (0 : Fin 2) 1) [3, 7] rfl) =
        Except.ok (permuteArray (Equiv.swap (0 : Fin 2) 1) delta hd) :=
  ⟨⟨strictLayer_elementwise _ _ _, rfl, rfl⟩,
    postTrigger_permute
      (strictLayer Real.exp (fun n => (n.val : ℝ)) STDPError.ShapeMismatch)
      (strictLayer_elementwise _ _ _)
      ⟨Polarity.Excitatory, Polarity.Excitatory, 1 / 100, true, true, 1, 1, 20, 20⟩
      2 (Equiv.swap (0 : Fin 2) 1) [5, 7] [3, 7] rfl rfl⟩

/-! ## Shape of the output -/

/-- C15: every trigger returns as many deltas as it was given timestamps.  On an array
layer that subtracts equal-length arrays element by element, `postTrigger` on two arrays
of `N` elements returns `N` elements; `preTriggerHebb` and `preTriggerAntiHebb` on a scalar
and an array of `N` elements return `N` elements. -/
theorem trigger_output_length {F E : Type} [Sub F] [Div F] [Mul F] [Neg F]
    (L : ArrayLayer F E) (hL : L.Elementwise) (r : StandardSTDP F) (N : Nat)
    (lastPostSpk lastArr : List F) (hp : lastPostSpk.length = N) (ha : lastArr.length = N)
    (s : Fin 4294967296) :
    (∃ delta : List F, r.postTrigger L lastPostSpk lastArr = Except.ok delta ∧
      delta.length = N) ∧
    (r.preTriggerHebb L s lastArr).length = N ∧
    (r.preTriggerAntiHebb L s lastArr).length = N := by
  refine ⟨?_, ?_, ?_⟩
  · rw [postTrigger_eq_map, hL lastArr lastPostSpk (ha.trans hp.symm)]
    refine ⟨_, rfl, ?_⟩
    rw [length_scaled_exp, List.length_zipWith, ha, hp, Nat.min_self]
  · rw [preTriggerHebb_eq_map, List.length_map, ha]
  · rw [preTriggerAntiHebb_eq_map, List.length_map, ha]

/-- Witness for C15: real arithmetic with the real exponential, two arrays of two
timestamps and the scalar 5. -/
theorem trigger_output_length_witness :
    ((strictLayer Real.exp (fun n => (n.val : ℝ)) STDPError.ShapeMismatch).Elementwise ∧
      ([5, 7] : List ℝ).length = 2 ∧ ([3, 7] : List ℝ).length = 2) ∧
    (∃ delta : List ℝ,
      StandardSTDP.postTrigger
          (strictLayer Real.exp (fun n => (n.val : ℝ)) STDPError.ShapeMismatch)
          ⟨Polarity.Excitatory, Polarity.Excitatory, 1 / 100, true, true, 1, 1, 20, 20⟩
          [5, 7] [3, 7] = Except.ok delta ∧
      delta.length = 2) ∧
    (StandardSTDP.preTriggerHebb
        (strictLayer Real.exp (fun n => (n.val : ℝ)) STDPError.ShapeMismatch)
        ⟨Polarity.Excitatory, Polarity.Excitatory, 1 / 100, true, true, 1, 1, 20, 20⟩
        5 [3, 7]).length = 2 ∧
    (StandardSTDP.preTriggerAntiHebb
        (strictLayer Real.exp (fun n => (n.val : ℝ)) STDPError.ShapeMismatch)
        ⟨Polarity.Excitatory, Polarity.Excitatory, 1 / 100, true, true, 1, 1, 20, 20⟩
        5 [3, 7]).length = 2 :=
  ⟨⟨strictLayer_elementwise _ _ _, rfl, rfl⟩,
    trigger_output_length
      (strictLayer Real.exp (fun n => (n.val : ℝ)) STDPError.ShapeMismatch)
      (strictLayer_elementwise _ _ _)
      ⟨Polarity.Excitatory, Polarity.Excitatory, 1 / 100, true, true, 1, 1, 20, 20⟩
      2 [5, 7] [3, 7] rfl rfl 5⟩

/-! ## The flag of the polarity constructor -/

/-- C16 at a failing input: the four-argument constructor is called with the flag `true`
on a storage whose `hebb` member holds `false`.  The flag lands in the member `heb`, the
rule keeps `hebb = false`, and `postTrigger` on that rule returns the depression
expression `-eta * exp((lastArr - lastPostSpk) / tau_m) * w_m`, which differs from the
potentiation expression `eta * exp((lastArr - lastPostSpk) / tau_p) * w_p`. -/
theorem ctor4_flag_is_not_the_branch_flag :
    StandardSTDP.ctor4
        (⟨fun p => if p = Polarity.Excitatory then 1 else 0, true,
          1, 1, 20, 20, 2, 2, 21, 21, 3, 3, 22, 22, 4, 4, 23, 23⟩ : Header ℝ)
        ⟨Polarity.Inhibitory, Polarity.Inhibitory, 5, false, false, 5, 5, 5, 5⟩
        Polarity.Excitatory Polarity.Excitatory (1 / 100) true =
      Except.ok ⟨Polarity.Excitatory, Polarity.Excitatory, 1 / 100, true, false, 1, 1, 20, 20⟩ ∧
    StandardSTDP.postTrigger
        (strictLayer Real.exp (fun n => (n.val : ℝ)) STDPError.ShapeMismatch)
        ⟨Polarity.Excitatory, Polarity.Excitatory, 1 / 100, true, false, 1, 1, 20, 20⟩
        [5] [3] =
      Except.ok [-(1 / 100) * Real.exp ((3 - 5) / 20) * 1] ∧
    -(1 / 100) * Real.exp ((3 - 5) / 20) * 1 ≠ 1 / 100 * Real.exp ((3 - 5) / 20) * 1 := by
  refine ⟨?_, ?_, ?_⟩
  · simp [StandardSTDP.ctor4, Header.truthy]
  · simp [StandardSTDP.postTrigger, strictLayer, arrayMulScalar, scalarMulArray,
      ArrayLayer.arrayExp, arrayDivScalar, Except.map]
  · have h := Real.exp_pos ((3 - 5) / 20)
    intro hc
    linarith

/-! ## Bounds in the causal window -/

/-- Bounds of a scaled exponential at a non-positive offset: with an exponential that is
never negative, at most `1` on non-positive arguments and `1` at zero, positive factors
`c`, `w` and a positive time constant `t`, an offset `d ≤ 0` gives
`0 ≤ c * exp(d / t) * w ≤ c * w`, with equality at `d = 0`. -/
theorem scaled_exp_bounds {F : Type} [LinearOrderedField F] (e : F → F)
    (hnonneg : ∀ x : F, 0 ≤ e x) (hle : ∀ x : F, x ≤ 0 → e x ≤ 1) (h0 : e 0 = 1)
    (c t w d : F) (hc : 0 < c) (ht : 0 < t) (hw : 0 < w) (hd : d ≤ 0) :
    0 ≤ c * e (d / t) * w ∧ c * e (d / t) * w ≤ c * w ∧ (d = 0 → c * e (d / t) * w = c * w) := by
  have hz : d / t ≤ 0 := div_nonpos_of_nonpos_of_nonneg hd ht.le
  have hcw : 0 ≤ c * w := (mul_pos hc hw).le
  have hform : c * e (d / t) * w = c * w * e (d / t) := by ring
  refine ⟨mul_nonneg (mul_nonneg hc.le (hnonneg _)) hw.le, ?_, ?_⟩
  · rw [hform]
    exact mul_le_of_le_one_right hcw (hle _ hz)
  · intro h
    rw [h, zero_div, h0, mul_one]

/-- The binary32 exponential built from the real one is never negative, is at most `1` on
non-positive arguments and is `1` at zero. -/
theorem binary32Exp_real_bounds :
    (∀ x : ℝ, 0 ≤ binary32Exp Real.exp x) ∧
    (∀ x : ℝ, x ≤ 0 → binary32Exp Real.exp x ≤ 1) ∧
    binary32Exp Real.exp 0 = 1 := by
  refine ⟨?_, ?_, ?_⟩
  · intro x
    unfold binary32Exp
    split_ifs
    · exact le_refl _
    · exact zero_le_one
    · exact (Real.exp_pos x).le
  · intro x hx
    unfold binary32Exp
    split_ifs
    · exact zero_le_one
    · exact le_refl _
    · exact Real.exp_le_one_iff.mpr hx
  · unfold binary32Exp
    norm_num

/-- C17, as stated, fails on an exponential with the range of binary32: for the Hebbian
rule with `eta = 1/100`, `w_p = 1`, `tau_p = 20` (all positive), arrival time 0 and
post-spike time 10000 give the exponent `-500`, the exponential `0` and the delta `0`,
which is not above zero; arrival time 0 and post-spike time `2^-30` are unequal, yet the
exponential is `1` and the delta is `1/100 = eta * w_p`. -/
theorem postTrigger_causal_bounds_not_strict :
    (((0 : ℝ) < 1 / 100 ∧ (0 : ℝ) < 1 ∧ (0 : ℝ) < 20) ∧
      (0 : ℝ) ≤ 10000 ∧ (0 : ℝ) ≤ 1 / 1073741824 ∧ (0 : ℝ) ≠ 1 / 1073741824) ∧
    StandardSTDP.postTrigger
        (strictLayer (binary32Exp Real.exp) (fun n => (n.val : ℝ)) STDPError.ShapeMismatch)
        ⟨Polarity.Excitatory, Polarity.Excitatory, 1 / 100, true, true, 1, 1, 20, 20⟩
        [10000] [0] = Except.ok [0] ∧
    ¬ ((0 : ℝ) < 0) ∧
    StandardSTDP.postTrigger
        (strictLayer (binary32Exp Real.exp) (fun n => (n.val : ℝ)) STDPError.ShapeMismatch)
        ⟨Polarity.Excitatory, Polarity.Excitatory, 1 / 100, true, true, 1, 1, 20, 20⟩
        [1 / 1073741824] [0] = Except.ok [1 / 100 * 1] := by
  refine ⟨⟨⟨by norm_num, by norm_num, by norm_num⟩, by norm_num, by norm_num, by norm_num⟩,
    ?_, lt_irrefl _, ?_⟩
  · have h : binary32Exp Real.exp ((0 - 10000) / 20) = 0 := by
      unfold binary32Exp
      norm_num
    simp only [StandardSTDP.postTrigger, strictLayer, arrayMulScalar, scalarMulArray,
      ArrayLayer.arrayExp, arrayDivScalar, Except.map, List.length_cons, List.length_nil,
      if_true, List.zipWith_cons_cons, List.zipWith_nil_right, List.map_cons, List.map_nil, h]
    norm_num
  · have h : binary32Exp Real.exp ((0 - 1 / 1073741824) / 20) = 1 := by
      unfold binary32Exp
      norm_num
    simp only [StandardSTDP.postTrigger, strictLayer, arrayMulScalar, scalarMulArray,
      ArrayLayer.arrayExp, arrayDivScalar, Except.map, List.length_cons, List.length_nil,
      if_true, List.zipWith_cons_cons, List.zipWith_nil_right, List.map_cons, List.map_nil, h]
    norm_num

/-- C17, amended: over a linearly ordered field whose exponential is never negative, at
most `1` on non-positive arguments and `1` at zero, on an array layer that subtracts
equal-length arrays element by element: for every rule with `eta`, `tau_p`, `tau_m`,
`w_p`, `w_m` all positive and every index `i` with `lastArr[i] ≤ lastPostSpk[i]`, the
`postTrigger` delta satisfies `0 ≤ delta[i] ≤ eta * w_p` under the Hebbian regime and
`-eta * w_m ≤ delta[i] ≤ 0` under the anti-Hebbian regime, and the bound is attained when
the two times are equal. -/
theorem postTrigger_causal_bounds {F E : Type} [LinearOrderedField F] (L : ArrayLayer F E)
    (hL : L.Elementwise) (hnonneg : ∀ x : F, 0 ≤ L.exp x)
    (hle : ∀ x : F, x ≤ 0 → L.exp x ≤ 1) (h0 : L.exp 0 = 1) (r : StandardSTDP F)
    (h_eta : 0 < r.eta) (h_tau_p : 0 < r.tau_p) (h_tau_m : 0 < r.tau_m)
    (h_w_p : 0 < r.w_p) (h_w_m : 0 < r.w_m)
    (lastPostSpk lastArr : List F) (hlen : lastPostSpk.length = lastArr.length) :
    ∃ delta : List F, r.postTrigger L lastPostSpk lastArr = Except.ok delta ∧
      ∀ (i : Nat) (a p : F), lastArr[i]? = some a → lastPostSpk[i]? = some p → a ≤ p →
        (r.hebb = true →
          ∃ x : F, delta[i]? = some x ∧ 0 ≤ x ∧ x ≤ r.eta * r.w_p ∧
            (a = p → x = r.eta * r.w_p)) ∧
        (r.hebb = false →
          ∃ x : F, delta[i]? = some x ∧ -r.eta * r.w_m ≤ x ∧ x ≤ 0 ∧
            (a = p → x = -r.eta * r.w_m)) := by
  rw [postTrigger_eq_map, hL lastArr lastPostSpk hlen.symm]
  refine ⟨_, rfl, ?_⟩
  intro i a p ha hp hap
  have hd := getElem?_zipWith_sub lastArr lastPostSpk i a p ha hp
  have hoff : a - p ≤ 0 := sub_nonpos.mpr hap
  constructor
  · intro hh
    obtain ⟨b1, b2, b3⟩ :=
      scaled_exp_bounds L.exp hnonneg hle h0 r.eta r.tau_p r.w_p (a - p) h_eta h_tau_p h_w_p hoff
    refine ⟨r.eta * L.exp ((a - p) / r.tau_p) * r.w_p, ?_, b1, b2,
      fun h => b3 (sub_eq_zero.mpr h)⟩
    rw [getElem?_scaled_exp, hd, hh]
    rfl
  · intro hh
    obtain ⟨b1, b2, b3⟩ :=
      scaled_exp_bounds L.exp hnonneg hle h0 r.eta r.tau_m r.w_m (a - p) h_eta h_tau_m h_w_m hoff
    have hneg : -r.eta * L.exp ((a - p) / r.tau_m) * r.w_m =
        -(r.eta * L.exp ((a - p) / r.tau_m) * r.w_m) := by ring
    refine ⟨-r.eta * L.exp ((a - p) / r.tau_m) * r.w_m, ?_, ?_, ?_, ?_⟩
    · rw [getElem?_scaled_exp, hd, hh]
      rfl
    · rw [hneg, neg_mul]
      exact neg_le_neg b2
    · rw [hneg]
      exact neg_nonpos.mpr b1
    · intro h
      rw [hneg, neg_mul, b3 (sub_eq_zero.mpr h)]

/-- Witness for C17: real arithmetic with the binary32 exponential built from the real
one, a Hebbian rule with `eta = 1/100`, `w_p = 1`, `w_m = 2`, `tau_p = 20`, `tau_m = 30`,
post-spike times 10000 and 7 and arrival times 0 and 7. -/
theorem postTrigger_causal_bounds_witness :
    ((strictLayer (binary32Exp Real.exp) (fun n => (n.val : ℝ))
        STDPError.ShapeMismatch).Elementwise ∧
      (∀ x : ℝ, 0 ≤ binary32Exp Real.exp x) ∧
      (∀ x : ℝ, x ≤ 0 → binary32Exp Real.exp x ≤ 1) ∧ binary32Exp Real.exp 0 = 1) ∧
    ((0 : ℝ) < 1 / 100 ∧ (0 : ℝ) < 20 ∧ (0 : ℝ) < 30 ∧ (0 : ℝ) < 1 ∧ (0 : ℝ) < 2) ∧
    ([10000, 7] : List ℝ).length = ([0, 7] : List ℝ).length ∧
    ∃ delta : List ℝ,
      StandardSTDP.postTrigger
          (strictLayer (binary32Exp Real.exp) (fun n => (n.val : ℝ)) STDPError.ShapeMismatch)
          ⟨Polarity.Excitatory, Polarity.Excitatory, 1 / 100, true, true, 1, 2, 20, 30⟩
          [10000, 7] [0, 7] = Except.ok delta ∧
      ∀ (i : Nat) (a p : ℝ), ([0, 7] : List ℝ)[i]? = some a →
        ([10000, 7] : List ℝ)[i]? = some p → a ≤ p →
        (true = true →
          ∃ x : ℝ, delta[i]? = some x ∧ 0 ≤ x ∧ x ≤ 1 / 100 * 1 ∧ (a = p → x = 1 / 100 * 1)) ∧
        (true = false →
          ∃ x : ℝ, delta[i]? = some x ∧ -(1 / 100) * 2 ≤ x ∧ x ≤ 0 ∧
            (a = p → x = -(1 / 100) * 2)) :=
  ⟨⟨strictLayer_elementwise _ _ _, binary32Exp_real_bounds.1, binary32Exp_real_bounds.2.1,
      binary32Exp_real_bounds.2.2⟩,
    ⟨by norm_num, by norm_num, by norm_num, by norm_num, by norm_num⟩, rfl,
    postTrigger_causal_bounds
      (strictLayer (binary32Exp Real.exp) (fun n => (n.val : ℝ)) STDPError.ShapeMismatch)
      (strictLayer_elementwise _ _ _) binary32Exp_real_bounds.1 binary32Exp_real_bounds.2.1
      binary32Exp_real_bounds.2.2
      ⟨Polarity.Excitatory, Polarity.Excitatory, 1 / 100, true, true, 1, 2, 20, 30⟩
      (by norm_num) (by norm_num) (by norm_num) (by norm_num) (by norm_num)
      [10000, 7] [0, 7] rfl⟩
